import Mathlib

/-!
Verification of the AirSense dashboard's core logic (src/app.py, src/app1.py):
the AQI classifier (get_aqi_color / get_aqi_level), the live-value random walk,
the synthetic forecast generator (generate_forecast_data), and the safe-zone
filter (get_safe_zones, app1.py only).

Python floats are modelled by real numbers; the one claim about NaN uses an
explicit PyFloat type (a real number or NaN) whose comparison mirrors IEEE-754:
any comparison involving NaN is false.
-/

namespace AirSense

/-- Embeds `get_aqi_color` (src/app.py lines 49-62, identical in app1.py):
an if/elif chain over thresholds 50, 100, 200, 300, 400 returning a hex color. -/
noncomputable def get_aqi_color (aqi : ℝ) : String :=
  if aqi ≤ 50 then "#10b981"
  else if aqi ≤ 100 then "#84cc16"
  else if aqi ≤ 200 then "#f59e0b"
  else if aqi ≤ 300 then "#ef4444"
  else if aqi ≤ 400 then "#b91c1c"
  else "#7f1d1d"

/-- Embeds `get_aqi_level` (src/app.py lines 64-77, identical in app1.py):
the same threshold chain returning a severity label. -/
noncomputable def get_aqi_level (aqi : ℝ) : String :=
  if aqi ≤ 50 then "Good"
  else if aqi ≤ 100 then "Satisfactory"
  else if aqi ≤ 200 then "Moderate"
  else if aqi ≤ 300 then "Poor"
  else if aqi ≤ 400 then "Very Poor"
  else "Severe"

/-- A Python float as fed to the classifier: either a real number or NaN. -/
inductive PyFloat where
  | nan : PyFloat
  | fin : ℝ → PyFloat

/-- IEEE-754 ordered comparison `x <= y` on Python floats: any comparison
involving NaN evaluates to False. -/
noncomputable def PyFloat.le : PyFloat → PyFloat → Bool
  | PyFloat.fin x, PyFloat.fin y => decide (x ≤ y)
  | _, _ => false

/-- Embeds `get_aqi_color` evaluated on an arbitrary Python float, with the
comparisons given IEEE semantics (source lines 49-62 of src/app.py). -/
noncomputable def get_aqi_color_py (aqi : PyFloat) : String :=
  if aqi.le (PyFloat.fin 50) then "#10b981"
  else if aqi.le (PyFloat.fin 100) then "#84cc16"
  else if aqi.le (PyFloat.fin 200) then "#f59e0b"
  else if aqi.le (PyFloat.fin 300) then "#ef4444"
  else if aqi.le (PyFloat.fin 400) then "#b91c1c"
  else "#7f1d1d"

/-- Embeds `get_aqi_level` evaluated on an arbitrary Python float, with the
comparisons given IEEE semantics (source lines 64-77 of src/app.py). -/
noncomputable def get_aqi_level_py (aqi : PyFloat) : String :=
  if aqi.le (PyFloat.fin 50) then "Good"
  else if aqi.le (PyFloat.fin 100) then "Satisfactory"
  else if aqi.le (PyFloat.fin 200) then "Moderate"
  else if aqi.le (PyFloat.fin 300) then "Poor"
  else if aqi.le (PyFloat.fin 400) then "Very Poor"
  else "Severe"

/-- C1: every AQI value in one of the six closed bands gets that band's fixed
label and color; the boundary values 50, 100, 200, 300, 400 fall in the lower
band (each band statement has an inclusive upper bound), and the spot checks
classify(0) = Good/#10b981, classify(500) = Severe/#7f1d1d,
classify(250) = Poor/#ef4444 hold. -/
theorem aqi_classifier_bands (v : ℝ) :
    (0 ≤ v → v ≤ 50 → get_aqi_level v = "Good" ∧ get_aqi_color v = "#10b981") ∧
    (50 < v → v ≤ 100 → get_aqi_level v = "Satisfactory" ∧ get_aqi_color v = "#84cc16") ∧
    (100 < v → v ≤ 200 → get_aqi_level v = "Moderate" ∧ get_aqi_color v = "#f59e0b") ∧
    (200 < v → v ≤ 300 → get_aqi_level v = "Poor" ∧ get_aqi_color v = "#ef4444") ∧
    (300 < v → v ≤ 400 → get_aqi_level v = "Very Poor" ∧ get_aqi_color v = "#b91c1c") ∧
    (400 < v → get_aqi_level v = "Severe" ∧ get_aqi_color v = "#7f1d1d") ∧
    (get_aqi_level 0 = "Good" ∧ get_aqi_color 0 = "#10b981") ∧
    (get_aqi_level 500 = "Severe" ∧ get_aqi_color 500 = "#7f1d1d") ∧
    (get_aqi_level 250 = "Poor" ∧ get_aqi_color 250 = "#ef4444") := by
  unfold get_aqi_level get_aqi_color
  norm_num
  refine ⟨?_, ?_, ?_, ?_, ?_, ?_⟩
  · intro _ h2
    simp [h2]
  · intro h1 h2
    simp [not_le.mpr h1, h2]
  · intro h1 h2
    simp [not_le.mpr (by linarith : (50:ℝ) < v), not_le.mpr h1, h2]
  · intro h1 h2
    simp [not_le.mpr (by linarith : (50:ℝ) < v), not_le.mpr (by linarith : (100:ℝ) < v),
      not_le.mpr h1, h2]
  · intro h1 h2
    simp [not_le.mpr (by linarith : (50:ℝ) < v), not_le.mpr (by linarith : (100:ℝ) < v),
      not_le.mpr (by linarith : (200:ℝ) < v), not_le.mpr h1, h2]
  · intro h1
    simp [not_le.mpr (by linarith : (50:ℝ) < v), not_le.mpr (by linarith : (100:ℝ) < v),
      not_le.mpr (by linarith : (200:ℝ) < v), not_le.mpr (by linarith : (300:ℝ) < v),
      not_le.mpr h1]

/-- Witness for C1 at v = 250: the hypotheses 200 < 250 and 250 ≤ 300 hold and
the classifier answers Poor/#ef4444. -/
theorem aqi_classifier_bands_witness :
    get_aqi_level 250 = "Poor" ∧ get_aqi_color 250 = "#ef4444" :=
  (aqi_classifier_bands 250).2.2.2.1 (by norm_num) (by norm_num)

/-- The classifier on a finite Python float agrees with the real-number
embedding: the PyFloat comparisons reduce to the real comparisons. -/
theorem get_aqi_level_py_fin (x : ℝ) : get_aqi_level_py (PyFloat.fin x) = get_aqi_level x := by
  simp [get_aqi_level_py, get_aqi_level, PyFloat.le]

/-- Same agreement for the color table. -/
theorem get_aqi_color_py_fin (x : ℝ) : get_aqi_color_py (PyFloat.fin x) = get_aqi_color x := by
  simp [get_aqi_color_py, get_aqi_color, PyFloat.le]

/-- C6: on NaN every threshold comparison is false, so both lookups fall
through every elif to the final else branch and return the Severe band
(label "Severe", color "#7f1d1d"); no error is raised (the functions are
total on PyFloat). -/
theorem classifier_nan_falls_through :
    get_aqi_level_py PyFloat.nan = "Severe" ∧ get_aqi_color_py PyFloat.nan = "#7f1d1d" := by
  constructor
  · simp [get_aqi_level_py, PyFloat.le]
  · simp [get_aqi_color_py, PyFloat.le]

/-- The band index both source functions implicitly compute: the position in
the shared threshold chain 50, 100, 200, 300, 400 at which the input first
passes an inclusive upper-bound test (5 when it passes none). -/
noncomputable def bandIdx (v : ℝ) : ℕ :=
  if v ≤ 50 then 0
  else if v ≤ 100 then 1
  else if v ≤ 200 then 2
  else if v ≤ 300 then 3
  else if v ≤ 400 then 4
  else 5

/-- The label table indexed by band. -/
def levelOfIdx : ℕ → String
  | 0 => "Good"
  | 1 => "Satisfactory"
  | 2 => "Moderate"
  | 3 => "Poor"
  | 4 => "Very Poor"
  | _ => "Severe"

/-- The color table indexed by band. -/
def colorOfIdx : ℕ → String
  | 0 => "#10b981"
  | 1 => "#84cc16"
  | 2 => "#f59e0b"
  | 3 => "#ef4444"
  | 4 => "#b91c1c"
  | _ => "#7f1d1d"

theorem get_aqi_level_eq_table (v : ℝ) : get_aqi_level v = levelOfIdx (bandIdx v) := by
  unfold get_aqi_level bandIdx
  split_ifs <;> rfl

theorem get_aqi_color_eq_table (v : ℝ) : get_aqi_color v = colorOfIdx (bandIdx v) := by
  unfold get_aqi_color bandIdx
  split_ifs <;> rfl

theorem bandIdx_lt_six (v : ℝ) : bandIdx v < 6 := by
  unfold bandIdx
  split_ifs <;> norm_num

theorem levelOfIdx_injOn : ∀ i < 6, ∀ j < 6, levelOfIdx i = levelOfIdx j → i = j := by
  decide

theorem colorOfIdx_injOn : ∀ i < 6, ∀ j < 6, colorOfIdx i = colorOfIdx j → i = j := by
  decide

/-- C5: the two duplicated lookups use the same band boundaries: for all
inputs x, y, the labels agree exactly when the colors agree; both equalities
are equivalent to the two inputs selecting the same band index. -/
theorem classifier_tables_consistent (x y : ℝ) :
    (get_aqi_level x = get_aqi_level y ↔ get_aqi_color x = get_aqi_color y) ∧
    (get_aqi_level x = get_aqi_level y ↔ bandIdx x = bandIdx y) ∧
    (get_aqi_color x = get_aqi_color y ↔ bandIdx x = bandIdx y) := by
  have hlvl : get_aqi_level x = get_aqi_level y ↔ bandIdx x = bandIdx y := by
    rw [get_aqi_level_eq_table, get_aqi_level_eq_table]
    exact ⟨fun h => levelOfIdx_injOn _ (bandIdx_lt_six x) _ (bandIdx_lt_six y) h,
      fun h => by rw [h]⟩
  have hcol : get_aqi_color x = get_aqi_color y ↔ bandIdx x = bandIdx y := by
    rw [get_aqi_color_eq_table, get_aqi_color_eq_table]
    exact ⟨fun h => colorOfIdx_injOn _ (bandIdx_lt_six x) _ (bandIdx_lt_six y) h,
      fun h => by rw [h]⟩
  exact ⟨hlvl.trans hcol.symm, hlvl, hcol⟩

/-- Witness for C5 at x = 0, y = 50: both inputs lie in the Good band, the
labels agree, and the theorem transports that to agreement of the colors. -/
theorem classifier_tables_consistent_witness :
    get_aqi_color 0 = get_aqi_color 50 :=
  (classifier_tables_consistent 0 50).1.mp
    (by rw [get_aqi_level_eq_table, get_aqi_level_eq_table]
        norm_num [bandIdx])

/-- The per-session mutable state the scripts keep (st.session_state): the
one scalar the random walk updates. -/
structure SessionState where
  current_aqi : ℝ

/-- A call of get_aqi_level during a script run: the function reads only its
argument and touches no session state, so the call returns the state
unchanged alongside the output (src/app.py lines 64-77 reference no global). -/
noncomputable def call_get_aqi_level (s : SessionState) (v : ℝ) : SessionState × String :=
  (s, get_aqi_level v)

/-- A call of get_aqi_color during a script run, likewise stateless. -/
noncomputable def call_get_aqi_color (s : SessionState) (v : ℝ) : SessionState × String :=
  (s, get_aqi_color v)

/-- C8: the classifier is deterministic and has no hidden state: two calls
with the same input from arbitrary session states (i.e. interleaved with any
other operations, in any order) return identical outputs, and neither call
modifies the session state. -/
theorem classifier_deterministic_stateless (s₁ s₂ : SessionState) (v : ℝ) :
    (call_get_aqi_level s₁ v).2 = (call_get_aqi_level s₂ v).2 ∧
    (call_get_aqi_color s₁ v).2 = (call_get_aqi_color s₂ v).2 ∧
    (call_get_aqi_level s₁ v).1 = s₁ ∧
    (call_get_aqi_color s₁ v).1 = s₁ :=
  ⟨rfl, rfl, rfl, rfl⟩

/-- One tick of the live-value random walk (src/app.py lines 180-181,
src/app1.py lines 205-206): add the noise sample to current_aqi, then clamp
with max(150, min(400, ·)). -/
noncomputable def tick (current_aqi noise : ℝ) : ℝ :=
  max 150 (min 400 (current_aqi + noise))

/-- The state after a sequence of ticks with the given noise samples,
starting from the seed 287 (src/app.py line 152). -/
noncomputable def walk (noises : List ℝ) : ℝ :=
  noises.foldl tick 287

theorem walk_aux (init : ℝ) (h1 : 150 ≤ init) (h2 : init ≤ 400) (noises : List ℝ) :
    150 ≤ noises.foldl tick init ∧ noises.foldl tick init ≤ 400 := by
  induction noises generalizing init with
  | nil => exact ⟨h1, h2⟩
  | cons n ns ih =>
      exact ih (tick init n) (le_max_left _ _)
        (max_le (by norm_num) (min_le_left _ _))

/-- C2: starting from the seed 287, after any sequence of ticks the current
AQI lies in [150, 400], whatever the noise sample at each tick (every
intermediate state is itself the value of walk on a prefix of the noise
list, so no reachable state leaves the interval). -/
theorem random_walk_clamped (noises : List ℝ) :
    150 ≤ walk noises ∧ walk noises ≤ 400 :=
  walk_aux 287 (by norm_num) (by norm_num) noises

/-- One row of the forecast table built by generate_forecast_data
(src/app.py lines 100-107): the Hour, AQI and PM2.5 columns. The Time column
is wall-clock string formatting and carries no numeric content. -/
structure ForecastPoint where
  hour : ℕ
  aqi : ℝ
  pm25 : ℝ

/-- The raw value the loop body computes into its local `aqi` before any
clamping (src/app.py line 101): base 250 plus sin(i/12)*50 plus the i-th
Gaussian sample, the samples modelled as an arbitrary function of i. -/
noncomputable def forecast_raw (noise : ℕ → ℝ) (i : ℕ) : ℝ :=
  250 + Real.sin ((i : ℝ) / 12) * 50 + noise i

/-- Embeds generate_forecast_data (src/app.py lines 95-108, identical in
app1.py): for i in range(hours), append a row with AQI clamped by
max(50, min(500, aqi)) and PM2.5 = aqi * 0.45 on the unclamped value. The
horizon is an integer: Python's range(h) is empty for h ≤ 0, matching
Int.toNat. -/
noncomputable def generate_forecast_data (hours : ℤ) (noise : ℕ → ℝ) : List ForecastPoint :=
  (List.range hours.toNat).map fun i =>
    ⟨i, max 50 (min 500 (forecast_raw noise i)), forecast_raw noise i * 0.45⟩

theorem length_generate_forecast_data (hours : ℤ) (noise : ℕ → ℝ) :
    (generate_forecast_data hours noise).length = hours.toNat := by
  simp [generate_forecast_data]

theorem generate_forecast_data_get (hours : ℤ) (noise : ℕ → ℝ) (i : ℕ)
    (h : i < (generate_forecast_data hours noise).length) :
    (generate_forecast_data hours noise).get ⟨i, h⟩ =
      ⟨i, max 50 (min 500 (forecast_raw noise i)), forecast_raw noise i * 0.45⟩ := by
  simp [generate_forecast_data]

/-- C3: with the noise forced to zero the generator is deterministic: the
i-th AQI value is exactly clamp(250 + 50*sin(i/12), 50, 500), for every
horizon and every index below the horizon. -/
theorem forecast_deterministic_zero_noise (hours : ℤ) (i : ℕ) (hi : i < hours.toNat) :
    ((generate_forecast_data hours (fun _ => 0)).get
        ⟨i, by rwa [length_generate_forecast_data]⟩).aqi
      = max 50 (min 500 (250 + 50 * Real.sin ((i : ℝ) / 12))) := by
  rw [generate_forecast_data_get]
  have harg : forecast_raw (fun _ => 0) i = 250 + 50 * Real.sin ((i : ℝ) / 12) := by
    unfold forecast_raw
    ring
  simp only [harg]

/-- Witness for C3 at hours = 24, i = 9 (the index the dashboard reads for
the "Tomorrow 9 AM" card): 9 < 24 and the value is the clamped sine term. -/
theorem forecast_deterministic_zero_noise_witness :
    ((generate_forecast_data 24 (fun _ => 0)).get
        ⟨9, by rw [length_generate_forecast_data]; decide⟩).aqi
      = max 50 (min 500 (250 + 50 * Real.sin ((9 : ℕ) / 12 : ℝ))) :=
  forecast_deterministic_zero_noise 24 9 (by decide)

/-- C4: for the two horizons the dashboards request, 24 and 72, the output
has exactly that many rows, every AQI value in the output lies in [50, 500]
whatever the noise realization, and with the noise removed the AQI of point
0 is 250. -/
theorem forecast_shape (hours : ℤ) (hH : hours = 24 ∨ hours = 72) (noise : ℕ → ℝ) :
    ((generate_forecast_data hours noise).length : ℤ) = hours ∧
    (∀ p ∈ generate_forecast_data hours noise, 50 ≤ p.aqi ∧ p.aqi ≤ 500) ∧
    ((generate_forecast_data hours (fun _ => 0)).get
        ⟨0, by rcases hH with h | h <;> simp [length_generate_forecast_data, h]⟩).aqi
      = 250 := by
  refine ⟨?_, ?_, ?_⟩
  · rw [length_generate_forecast_data]
    rcases hH with h | h <;> simp [h]
  · intro p hp
    simp only [generate_forecast_data, List.mem_map, List.mem_range] at hp
    obtain ⟨i, _, rfl⟩ := hp
    exact ⟨le_max_left _ _, max_le (by norm_num) (min_le_left _ _)⟩
  · rw [generate_forecast_data_get]
    have h0 : forecast_raw (fun _ => 0) 0 = 250 := by
      simp [forecast_raw]
    rw [h0]
    norm_num

/-- Witness for C4 at hours = 24 with zero noise: 24 = 24 ∨ 24 = 72 holds and
the generator emits exactly 24 rows. -/
theorem forecast_shape_witness :
    (((generate_forecast_data 24 (fun _ => 0)).length : ℤ)) = 24 :=
  (forecast_shape 24 (Or.inl rfl) (fun _ => 0)).1

/-- C7: neither generator has an error path: for a non-positive horizon the
forecast loop body never runs and the result is the empty table (length 0),
and the random-walk tick is a total function, defined for every state and
noise value. -/
theorem generators_no_error_paths (hours : ℤ) (hH : hours ≤ 0) (noise : ℕ → ℝ)
    (s n : ℝ) :
    generate_forecast_data hours noise = [] ∧
    (generate_forecast_data hours noise).length = 0 ∧
    ∃ r : ℝ, tick s n = r := by
  have hz : hours.toNat = 0 := Int.toNat_eq_zero.mpr hH
  refine ⟨?_, ?_, ⟨tick s n, rfl⟩⟩
  · simp [generate_forecast_data, hz]
  · simp [length_generate_forecast_data, hz]

/-- Witness for C7 at hours = -1 (and at state 287 with zero noise for the
tick): -1 ≤ 0 holds and the forecast output is empty. -/
theorem generators_no_error_paths_witness :
    generate_forecast_data (-1) (fun _ => 0) = [] :=
  (generators_no_error_paths (-1) (by norm_num) (fun _ => 0) 287 0).1

/-- C9: the PM2.5 column is 0.45 times the unclamped raw value, not 0.45
times the clamped AQI column: whenever the raw value leaves [50, 500] the
row violates PM2.5 = 0.45 * AQI, and the PM2.5 column is not confined to
[22.5, 225] (a noise sample of 1000 at hour 0 yields PM2.5 above 225). -/
theorem forecast_pm25_uses_raw (hours : ℤ) (noise : ℕ → ℝ) (i : ℕ)
    (hi : i < (generate_forecast_data hours noise).length) :
    ((generate_forecast_data hours noise).get ⟨i, hi⟩).pm25
        = forecast_raw noise i * 0.45 ∧
    (forecast_raw noise i < 50 ∨ 500 < forecast_raw noise i →
      ((generate_forecast_data hours noise).get ⟨i, hi⟩).pm25 ≠
        ((generate_forecast_data hours noise).get ⟨i, hi⟩).aqi * 0.45) ∧
    225 < ((generate_forecast_data 1 (fun _ => 1000)).get
        ⟨0, by rw [length_generate_forecast_data]; decide⟩).pm25 := by
  rw [generate_forecast_data_get, generate_forecast_data_get]
  refine ⟨rfl, ?_, ?_⟩
  · intro hcase
    rcases hcase with h | h
    · have haqi : max 50 (min 500 (forecast_raw noise i)) = 50 := by
        rw [min_eq_right (by linarith), max_eq_left (by linarith)]
      simp only [haqi]
      intro heq
      have : forecast_raw noise i = 50 := by linarith
      linarith
    · have haqi : max 50 (min 500 (forecast_raw noise i)) = 500 := by
        rw [min_eq_left (by linarith), max_eq_right (by norm_num)]
      simp only [haqi]
      intro heq
      have : forecast_raw noise i = 500 := by linarith
      linarith
  · have hraw : forecast_raw (fun _ => 1000) 0 = 1250 := by
      simp [forecast_raw]
      norm_num
    simp only [hraw]
    norm_num

/-- Witness for C9 at hours = 1, noise constantly 1000, i = 0: the index is
in range, the raw value 1250 exceeds 500, and the row indeed violates
PM2.5 = 0.45 * AQI. -/
theorem forecast_pm25_uses_raw_witness :
    ((generate_forecast_data 1 (fun _ => 1000)).get
        ⟨0, by rw [length_generate_forecast_data]; decide⟩).pm25 ≠
      ((generate_forecast_data 1 (fun _ => 1000)).get
        ⟨0, by rw [length_generate_forecast_data]; decide⟩).aqi * 0.45 :=
  (forecast_pm25_uses_raw 1 (fun _ => 1000) 0
      (by rw [length_generate_forecast_data]; decide)).2.1
    (Or.inr (by simp [forecast_raw]; norm_num))

/-- One row of the hotspot area table of src/app1.py (lines 128-134): the
Area, AQI, Latitude, Longitude and Category columns. The hard-coded AQI and
coordinate entries are decimal numerals, modelled as rationals. -/
structure Area where
  name : String
  aqi : ℚ
  latitude : ℚ
  longitude : ℚ
  category : String
  deriving DecidableEq

/-- Embeds get_safe_zones (src/app1.py lines 157-159):
hotspots_df[hotspots_df.AQI < 200].sort_values, i.e. keep the rows whose AQI
is strictly below 200 and sort them by ascending AQI. -/
def get_safe_zones (hotspots_df : List Area) : List Area :=
  (hotspots_df.filter fun a => decide (a.aqi < 200)).mergeSort
    fun a b => decide (a.aqi ≤ b.aqi)

/-- C10: on any area table, get_safe_zones returns exactly the rows whose
AQI is strictly below 200 (each with the same multiplicity as in the
filtered table, every field of a retained row unchanged because whole rows
are kept; a row with AQI exactly 200 is excluded), in ascending order of
AQI. -/
theorem get_safe_zones_spec (df : List Area) :
    (get_safe_zones df).Perm (df.filter fun a => decide (a.aqi < 200)) ∧
    (∀ a, a ∈ get_safe_zones df ↔ a ∈ df ∧ a.aqi < 200) ∧
    (∀ a, (get_safe_zones df).count a
      = (df.filter fun x => decide (x.aqi < 200)).count a) ∧
    (get_safe_zones df).Pairwise (fun a b => a.aqi ≤ b.aqi) := by
  refine ⟨List.mergeSort_perm _ _, ?_, ?_, ?_⟩
  · intro a
    unfold get_safe_zones
    rw [List.mem_mergeSort, List.mem_filter]
    simp
  · intro a
    exact (List.mergeSort_perm _ _).count_eq a
  · have hs := @List.sorted_mergeSort Area (fun a b => decide (a.aqi ≤ b.aqi))
      (fun a b c sab sbc => by
        simp only [decide_eq_true_eq] at sab sbc ⊢
        exact le_trans sab sbc)
      (fun a b => by
        simp only [Bool.or_eq_true, decide_eq_true_eq]
        exact le_total a.aqi b.aqi)
      (df.filter fun a => decide (a.aqi < 200))
    exact hs.imp fun h => by simpa using h

end AirSense
